import Mathlib

/-!
Shallow embedding of `oauth_dropins/reddit.py` (the reddit OAuth drop-in):
the data model (`OAuthRequestToken`, `RedditAuth`), the Start stage
(`StartHandler.redirect_url`) and the Callback stage (`CallbackHandler.get`),
together with models of the external collaborators the flow uses
(the datastore, the webapp request object, praw, and the webutil
oauth-state codec, which is not part of the source tree).

Python-specific behaviours are embedded faithfully:
  * `self.request.get(name)` returns `''` when the parameter is absent;
  * truthiness of strings (`''` is falsy) and of `None`;
  * `error in ('access_denied')` is a *substring* test against the string
    `'access_denied'` (the parenthesised expression is a string, not a tuple);
  * the name `request_token_key` on line 109 is undefined, so that line
    raises `NameError` rather than `HTTPBadRequest`;
  * a dict comprehension keeps the first occurrence of a duplicated key
    (the value is overwritten, the position is not);
  * datastore `put()` overwrites the record with the same key.
-/

/-- Entity `models.OAuthRequestToken`: the ephemeral pending-auth record written at
Start and looked up at Callback. -/
structure OAuthRequestToken where
  id : String
  token_secret : String
  state : String
deriving Repr, DecidableEq

/-- Entity `RedditAuth`: the durable credential record, keyed by the reddit
username. `user_json` holds the serialized profile snapshot, embedded here
as the key/value pairs of the Python dict that gets `json_dumps`-ed. -/
structure RedditAuth where
  id : String
  refresh_token : String
  user_json : List (String × String)
deriving Repr, DecidableEq

/-- Method `RedditAuth.access_token()`: returns the OAuth refresh token. -/
def RedditAuth.access_token (a : RedditAuth) : String :=
  a.refresh_token

/-- Method `RedditAuth.user_display_name()`: returns the username (the key id). -/
def RedditAuth.user_display_name (a : RedditAuth) : String :=
  a.id

/-- A keyed datastore table (ndb): a list of (key, entity) pairs. -/
abbrev Store (α : Type) : Type := List (String × α)

/-- ndb `Model.get_by_id`: the entity stored under the key, if any. -/
def get_by_id {α : Type} (s : Store α) (k : String) : Option α :=
  match s with
  | [] => none
  | (k₀, v₀) :: t => if k₀ = k then some v₀ else get_by_id t k

/-- ndb `Model.put()`: overwrite the record with the same key, or add it. -/
def storePut {α : Type} : Store α → String → α → Store α
  | [], k, v => [(k, v)]
  | (k₀, v₀) :: t, k, v =>
    if k₀ = k then (k, v) :: t else (k₀, v₀) :: storePut t k v

/-- How many records of the table carry the key. -/
def countKey {α : Type} (s : Store α) (k : String) : Nat :=
  (s.filter (fun kv => kv.1 = k)).length

/-- Python truthiness of a string: `''` is falsy. -/
def pyTruthyStr (s : String) : Bool := s ≠ ""

/-- Python truthiness of `dict.get`'s result: `None` and `''` are falsy. -/
def pyTruthyOpt : Option String → Bool
  | none => false
  | some s => s ≠ ""

/-- Whether `needle` starts the character list `haystack`. -/
def charsStart : List Char → List Char → Bool
  | [], _ => true
  | _ :: _, [] => false
  | a :: as, b :: bs => a = b && charsStart as bs

/-- Whether `needle` occurs contiguously inside `haystack`. -/
def charsContain (needle haystack : List Char) : Bool :=
  match haystack with
  | [] => needle.isEmpty
  | _ :: t => charsStart needle haystack || charsContain needle t

/-- Python's `needle in haystack` on strings: substring membership.
Note `'' in s` is `True` for every `s`. -/
def pyIn (needle haystack : String) : Bool :=
  charsContain needle.toList haystack.toList

/-- Python `dict.get`: the value under the key, else `None`. -/
def dictGet (d : List (String × String)) (k : String) : Option String :=
  match d with
  | [] => none
  | (k₀, v₀) :: t => if k₀ = k then some v₀ else dictGet t k

/-- One step of building a Python dict: overwrite the value in place if the
key exists, else append the pair. -/
def dictInsert (d : List (String × String)) (k v : String) :
    List (String × String) :=
  match d with
  | [] => [(k, v)]
  | (k₀, v₀) :: t =>
    if k₀ = k then (k, v) :: t else (k₀, v₀) :: dictInsert t k v

/-- A Python dict comprehension over a list of key/value pairs: duplicate
keys keep their first position and last value. -/
def pyDict (l : List (String × String)) : List (String × String) :=
  l.foldl (fun d kv => dictInsert d kv.1 kv.2) []

/-- Little-endian-free decimal digit list of a natural number, with explicit
fuel so that it reduces by `rfl`; `fuel > n` is always enough. -/
def decDigitsAux : Nat → Nat → List Char
  | 0, _ => []
  | fuel + 1, n =>
    if n < 10 then [Nat.digitChar n]
    else decDigitsAux fuel (n / 10) ++ [Nat.digitChar (n % 10)]

/-- Python `str` on a non-negative int: its decimal representation. -/
def pyStr (n : Nat) : String :=
  String.mk (decDigitsAux (n + 1) n)

/-! ### The oauth-state codec (`oauth_dropins.webutil.util`)

`encode_oauth_state` / `decode_oauth_state` live in the `webutil` package,
which is not part of the source tree; they are modelled from the spec. -/

/-- Escape one field: the separator `|` and the escape `\` are preceded by
`\`, every other character is kept as is. -/
def escField : List Char → List Char
  | [] => []
  | c :: cs =>
    if c = '\\' ∨ c = '|' then '\\' :: c :: escField cs
    else c :: escField cs

/-- Read one escaped field up to its `|` terminator; `none` when the input
ends before an unescaped `|` (a malformed blob). Returns the field and the
rest of the input. -/
def readField : List Char → Option (List Char × List Char)
  | [] => none
  | c :: cs =>
    if c = '\\' then
      match cs with
      | [] => none
      | d :: ds =>
        match readField ds with
        | some (f, r) => some (d :: f, r)
        | none => none
    else if c = '|' then some ([], cs)
    else
      match readField cs with
      | some (f, r) => some (c :: f, r)
      | none => none

/-- Read the final escaped field, which extends to the end of the input;
`none` on a stray separator or a dangling escape (a malformed blob). -/
def readLast : List Char → Option (List Char)
  | [] => some []
  | c :: cs =>
    if c = '\\' then
      match cs with
      | [] => none
      | d :: ds =>
        match readLast ds with
        | some f => some (d :: f)
        | none => none
    else if c = '|' then none
    else
      match readLast cs with
      | some f => some (c :: f)
      | none => none

/-- Modelled from the spec: `util.encode_oauth_state` (missing from the
source tree, it lives in the external `webutil` package) — "an opaque,
reversible encoding of a mapping `{state: string, toPath: string}`,
produced by the Start stage and consumed by the Callback stage; must
round-trip exactly". The two fields are escaped and joined by `|`. -/
def encode_oauth_state (state to_path : String) : String :=
  String.mk (escField state.toList ++ '|' :: escField to_path.toList)

/-- Modelled from the spec: `util.decode_oauth_state` (missing from the
source tree) — inverse of `encode_oauth_state`; an empty parameter decodes
to the empty mapping, a malformed blob is a decode failure (`none`), "never
silently default". -/
def decode_oauth_state (s : String) : Option (List (String × String)) :=
  if s = "" then some []
  else
    match readField s.toList with
    | none => none
    | some (f, r) =>
      match readLast r with
      | none => none
      | some g => some [("state", String.mk f), ("to_path", String.mk g)]

/-! ### External collaborators: configuration, request, praw -/

/-- The two application secrets read by `util.read` at module level
(`reddit_app_key` / `reddit_app_secret`); a missing file reads as the
empty (falsy) value. -/
structure Config where
  reddit_app_key : String
  reddit_app_secret : String
deriving Repr, DecidableEq

/-- Module-level initialization (lines 20-23 of the source): it only reads
the two configuration values; no assertion runs at import time. -/
def moduleInit (readAppKey readAppSecret : String) : Except String Config :=
  Except.ok { reddit_app_key := readAppKey, reddit_app_secret := readAppSecret }

/-- The webapp request's query parameters: `self.request.get(name)` returns
`''` when the parameter is absent, so a request is a total map with default
`''`. -/
abbrev Request : Type := String → String

/-- Modelled from the spec: the reddit user object returned by praw's
`reddit.user.me()` — the profile attributes are read with `getattr`, and
`str(user)` is the provider's stable username (the `name` attribute). -/
structure ProviderUser where
  attrs : String → String

/-- Python `str(user)` on a praw Redditor: its username. -/
def ProviderUser.toStr (u : ProviderUser) : String :=
  u.attrs "name"

/-- Modelled from the spec: the provider-side collaborator (praw) used by
the Callback stage — `auth.authorize(code)` exchanges the code for the
refresh-capable token and `user.me()` fetches the authenticated identity;
either can fail upstream (network, invalid code, revoked consent). -/
structure Provider where
  authorize : String → Except String String
  me : Except String ProviderUser

/-- Modelled from the spec: praw's `reddit.auth.url(scopes, state, duration)`
builds the provider authorization URL embedding the client id, the
requested duration, the redirect URI, the scopes and the state blob. -/
def prawAuthUrl (clientId redirectUri : String) (scopes : List String)
    (state duration : String) : String :=
  "https://www.reddit.com/api/v1/authorize?client_id=" ++ clientId ++
    "&duration=" ++ duration ++
    "&redirect_uri=" ++ redirectUri ++
    "&response_type=code&scope=" ++ String.intercalate "%20" scopes ++
    "&state=" ++ state

/-! ### The Start stage -/

/-- The observable effects of one `redirect_url` call, in order. -/
inductive StartEvent where
  | putPending (tok : OAuthRequestToken)
  | returnUrl (url : String)
deriving Repr, DecidableEq

/-- Method `StartHandler.redirect_url` (lines 60-76). `rand` stands for the value
`randint(100000, 999999)` would draw; it is only consulted when the caller
passes no truthy state. The result is the outcome (the assertion message on
configuration error, else the updated pending store and the URL) paired
with the ordered effect trace. -/
def StartHandler.redirect_url (cfg : Config) (host_url to_path : String)
    (rand : Nat) (state : Option String)
    (pending : Store OAuthRequestToken) :
    Except String (Store OAuthRequestToken × String) × List StartEvent :=
  let st0 : String :=
    if pyTruthyOpt state then state.getD "" else pyStr rand
  if pyTruthyStr cfg.reddit_app_key ∧ pyTruthyStr cfg.reddit_app_secret then
    let tok : OAuthRequestToken :=
      { id := st0, token_secret := st0, state := st0 }
    let pending' := storePut pending st0 tok
    let blob := encode_oauth_state st0 to_path
    let url := prawAuthUrl cfg.reddit_app_key (host_url ++ to_path)
      ["identity"] blob "permanent"
    (Except.ok (pending', url),
      [StartEvent.putPending tok, StartEvent.returnUrl url])
  else
    (Except.error
      "Please fill in the reddit_app_key and reddit_app_secret files in your app's root directory.",
      [])

/-! ### The Callback stage -/

/-- The `state=` keyword argument handed to `self.finish`: the decline path
(line 99) passes the decoded `state` *field* (`st.get('state')`), while the
success path (line 135) passes the whole decoded mapping `st`. -/
inductive FinishState where
  | token (s : Option String)
  | blob (st : List (String × String))
deriving Repr, DecidableEq

/-- How one `CallbackHandler.get` invocation terminates. -/
inductive Outcome where
  | finish (credential : Option RedditAuth) (state : FinishState)
  | httpBadRequest (msg : String)
  | nameError (missing : String)
  | decodeFailure
  | upstreamError (e : String)
deriving Repr, DecidableEq

/-- Line 121-127: the "short list of attributes to grab", with `name`
listed twice as in the source. -/
def attribute_list : List String :=
  ["name", "comment_karma", "created_utc", "id", "name", "link_karma",
    "icon_img"]

/-- Lines 128-133: the credential entity built on the Callback success
path — `id` is `str(user)`, `user_json` the dict comprehension over the
attribute whitelist. -/
def redditAuthOf (user : ProviderUser) (refresh_token : String) :
    RedditAuth :=
  { id := user.toStr, refresh_token := refresh_token,
    user_json := pyDict (attribute_list.map (fun a => (a, user.attrs a))) }

/-- Method `CallbackHandler.get` (lines 90-135). Returns the outcome together with
the pending store and the credential store after the call. The local
variables of the source (`error`, `state`, `to_path`, `code`) are inlined:
`error` is `req "error"`, `state` is `dictGet st "state"`, `to_path` is
`dictGet st "to_path"` (unused after this point, since the praw client
construction it feeds is abstracted into `provider`), `code` is
`req "code"`. -/
def CallbackHandler.get (provider : Provider) (req : Request)
    (pending : Store OAuthRequestToken) (creds : Store RedditAuth) :
    Outcome × Store OAuthRequestToken × Store RedditAuth :=
  match decode_oauth_state (req "state") with
  | none => (Outcome.decodeFailure, pending, creds)
  | some st =>
    if pyTruthyStr (req "error") ∨ ¬ pyTruthyOpt (dictGet st "state") ∨
        ¬ pyTruthyStr (req "code") then
      -- `error in ('access_denied')` is a substring test: see the header.
      if pyIn (req "error") "access_denied" then
        (Outcome.finish none (FinishState.token (dictGet st "state")),
          pending, creds)
      else
        (Outcome.httpBadRequest ("Error: " ++ req "error"), pending, creds)
    else
      match get_by_id pending ((dictGet st "state").getD "") with
      | none =>
        -- line 109 interpolates the undefined name `request_token_key`
        (Outcome.nameError "request_token_key", pending, creds)
      | some _ =>
        match provider.authorize (req "code") with
        | Except.error e => (Outcome.upstreamError e, pending, creds)
        | Except.ok refresh_token =>
          match provider.me with
          | Except.error e => (Outcome.upstreamError e, pending, creds)
          | Except.ok user =>
            (Outcome.finish (some (redditAuthOf user refresh_token))
                (FinishState.blob st),
              pending,
              storePut creds user.toStr (redditAuthOf user refresh_token))

/-! ### Concrete fixtures used by witnesses and counterexamples -/

/-- A provider double for concrete runs: exchanges the code `abc123` for
the refresh token `rt1` and identifies the user `alice`. -/
def demoUser : ProviderUser :=
  ⟨fun a => if a = "name" then "alice" else "0"⟩

def demoProvider : Provider :=
  { authorize := fun c =>
      if c = "abc123" then Except.ok "rt1" else Except.error "invalid code"
    me := Except.ok demoUser }

/-- A second exchange for the same identity: refresh token `rt2`, karma
counter changed. -/
def demoUser2 : ProviderUser :=
  ⟨fun a => if a = "name" then "alice" else "7"⟩

def demoProvider2 : Provider :=
  { authorize := fun c =>
      if c = "abc123" then Except.ok "rt2" else Except.error "invalid code"
    me := Except.ok demoUser2 }

/-- A provider double whose exchange fails upstream. -/
def failProvider : Provider :=
  { authorize := fun _ => Except.error "invalid_grant"
    me := Except.error "offline" }

/-- A pending store holding the state token `123456`. -/
def demoPending : Store OAuthRequestToken :=
  [("123456", { id := "123456", token_secret := "123456", state := "123456" })]

/-- A callback request carrying the encoded state blob for token `123456`
and the code `abc123`, with no error parameter. -/
def demoReq : Request := fun k =>
  if k = "state" then encode_oauth_state "123456" "/cb"
  else if k = "code" then "abc123" else ""

/-- Pending-auth record written by Start for the drawn random token. -/
def startTok (n : Nat) : OAuthRequestToken :=
  { id := pyStr n, token_secret := pyStr n, state := pyStr n }

/-! ### Lemmas about the codec -/

theorem readField_sep (cs : List Char) :
    readField ('|' :: cs) = some ([], cs) := by
  rw [readField.eq_def]
  simp

theorem readField_esc (c : Char) (cs : List Char) :
    readField ('\\' :: c :: cs) =
      (match readField cs with
      | some (f, r) => some (c :: f, r)
      | none => none) := by
  rw [readField.eq_def]
  simp

theorem readField_plain (c : Char) (cs : List Char) (h1 : c ≠ '\\')
    (h2 : c ≠ '|') :
    readField (c :: cs) =
      (match readField cs with
      | some (f, r) => some (c :: f, r)
      | none => none) := by
  rw [readField.eq_def]
  simp [h1, h2]

theorem readLast_esc (c : Char) (cs : List Char) :
    readLast ('\\' :: c :: cs) =
      (match readLast cs with
      | some f => some (c :: f)
      | none => none) := by
  rw [readLast.eq_def]
  simp

theorem readLast_plain (c : Char) (cs : List Char) (h1 : c ≠ '\\')
    (h2 : c ≠ '|') :
    readLast (c :: cs) =
      (match readLast cs with
      | some f => some (c :: f)
      | none => none) := by
  rw [readLast.eq_def]
  simp [h1, h2]

theorem readField_escField (xs r : List Char) :
    readField (escField xs ++ '|' :: r) = some (xs, r) := by
  induction xs with
  | nil => exact readField_sep r
  | cons c cs ih =>
    by_cases h : c = '\\' ∨ c = '|'
    · have he : escField (c :: cs) ++ '|' :: r =
          '\\' :: c :: (escField cs ++ '|' :: r) := by
        simp [escField, if_pos h]
      rw [he, readField_esc, ih]
    · push_neg at h
      have he : escField (c :: cs) ++ '|' :: r =
          c :: (escField cs ++ '|' :: r) := by
        simp [escField, h.1, h.2]
      rw [he, readField_plain c _ h.1 h.2, ih]

theorem readLast_escField (xs : List Char) :
    readLast (escField xs) = some xs := by
  induction xs with
  | nil => rfl
  | cons c cs ih =>
    by_cases h : c = '\\' ∨ c = '|'
    · have he : escField (c :: cs) = '\\' :: c :: escField cs := by
        simp [escField, if_pos h]
      rw [he, readLast_esc, ih]
    · push_neg at h
      have he : escField (c :: cs) = c :: escField cs := by
        simp [escField, h.1, h.2]
      rw [he, readLast_plain c _ h.1 h.2, ih]

theorem encode_oauth_state_ne_empty (s p : String) :
    encode_oauth_state s p ≠ "" := by
  intro h
  have : (encode_oauth_state s p).data = ("" : String).data := by rw [h]
  simp [encode_oauth_state] at this

theorem decode_encode_oauth_state (s p : String) :
    decode_oauth_state (encode_oauth_state s p) =
      some [("state", s), ("to_path", p)] := by
  rw [decode_oauth_state, if_neg (encode_oauth_state_ne_empty s p)]
  have htl : (encode_oauth_state s p).toList =
      escField s.toList ++ '|' :: escField p.toList := rfl
  rw [htl, readField_escField]
  show (match readLast (escField p.toList) with
    | none => none
    | some g =>
      some [("state", String.mk s.toList), ("to_path", String.mk g)]) =
    some [("state", s), ("to_path", p)]
  rw [readLast_escField]
  rfl

/-! ### Lemmas about the datastore tables -/

theorem get_by_id_storePut {α : Type} (s : Store α) (k : String) (v : α) :
    get_by_id (storePut s k v) k = some v := by
  induction s with
  | nil => simp [storePut, get_by_id]
  | cons hd t ih =>
    obtain ⟨k₀, v₀⟩ := hd
    by_cases hk : k₀ = k
    · simp [storePut, hk, get_by_id]
    · simp [storePut, hk, get_by_id, ih]

theorem countKey_cons {α : Type} (k₀ : String) (v₀ : α) (t : Store α)
    (k : String) :
    countKey ((k₀, v₀) :: t) k =
      (if k₀ = k then 1 else 0) + countKey t k := by
  by_cases h : k₀ = k <;>
    simp [countKey, List.filter_cons, h, Nat.add_comm]

theorem countKey_storePut {α : Type} (s : Store α) (k : String) (v : α)
    (h : countKey s k ≤ 1) : countKey (storePut s k v) k = 1 := by
  induction s with
  | nil => simp [storePut, countKey]
  | cons hd t ih =>
    obtain ⟨k₀, v₀⟩ := hd
    by_cases hk : k₀ = k
    · rw [countKey_cons, if_pos hk] at h
      have ht : countKey t k = 0 := by omega
      simp [storePut, hk, countKey_cons, ht]
    · rw [countKey_cons, if_neg hk] at h
      simp [storePut, hk, countKey_cons, ih (by omega : countKey t k ≤ 1)]

/-! ### Lemmas about decimal representations -/

theorem decDigitsAux_isDigit (fuel n : Nat) :
    (decDigitsAux fuel n).all Char.isDigit = true := by
  have hdc : ∀ m, m < 10 → (Nat.digitChar m).isDigit = true := by decide
  induction fuel generalizing n with
  | zero => rfl
  | succ fuel ih =>
    rw [decDigitsAux]
    by_cases h : n < 10
    · simp [h, hdc n h]
    · simp [h, ih (n / 10), hdc (n % 10) (Nat.mod_lt n (by norm_num))]

theorem decDigitsAux_length (fuel k n : Nat) (hfuel : n < fuel)
    (hlo : 10 ^ k ≤ n) (hhi : n < 10 ^ (k + 1)) :
    (decDigitsAux fuel n).length = k + 1 := by
  induction fuel generalizing k n with
  | zero => omega
  | succ fuel ih =>
    rw [decDigitsAux]
    by_cases h : n < 10
    · have hk : k = 0 := by
        by_contra hk0
        have : 10 ≤ 10 ^ k := by
          calc 10 = 10 ^ 1 := (pow_one 10).symm
          _ ≤ 10 ^ k := Nat.pow_le_pow_right (by norm_num) (by omega)
        omega
      simp [h, hk]
    · have hk : k ≠ 0 := by
        intro hk0
        rw [hk0] at hhi
        simp at hhi
        omega
      obtain ⟨k', rfl⟩ : ∃ k', k = k' + 1 := ⟨k - 1, by omega⟩
      have hlo' : 10 ^ k' ≤ n / 10 := by
        rw [Nat.le_div_iff_mul_le (by norm_num)]
        calc 10 ^ k' * 10 = 10 ^ (k' + 1) := by ring
        _ ≤ n := hlo
      have hhi' : n / 10 < 10 ^ (k' + 1) := by
        rw [Nat.div_lt_iff_lt_mul (by norm_num)]
        calc n < 10 ^ (k' + 1 + 1) := hhi
        _ = 10 ^ (k' + 1) * 10 := by ring
      have hfuel' : n / 10 < fuel := by
        have h1 : n / 10 < n := Nat.div_lt_self (by omega) (by norm_num)
        omega
      simp [h, ih k' (n / 10) hfuel' hlo' hhi']

theorem pyStr_six_digits (n : Nat) (hlo : 100000 ≤ n) (hhi : n ≤ 999999) :
    (pyStr n).length = 6 ∧ (pyStr n).toList.all Char.isDigit = true := by
  constructor
  · show (decDigitsAux (n + 1) n).length = 6
    exact decDigitsAux_length (n + 1) 5 n (by omega) (by norm_num; omega)
      (by norm_num; omega)
  · exact decDigitsAux_isDigit (n + 1) n

theorem pyStr_ne_empty (n : Nat) (hlo : 100000 ≤ n) (hhi : n ≤ 999999) :
    pyStr n ≠ "" := by
  intro h
  have h6 := (pyStr_six_digits n hlo hhi).1
  rw [h] at h6
  simp at h6

/-! ### Structural lemmas about the Callback stage -/

theorem callback_pending_unchanged (provider : Provider) (req : Request)
    (pending : Store OAuthRequestToken) (creds : Store RedditAuth) :
    (CallbackHandler.get provider req pending creds).2.1 = pending := by
  unfold CallbackHandler.get
  repeat' (first | rfl | split)

theorem callback_outcome_ignores_creds (provider : Provider) (req : Request)
    (pending : Store OAuthRequestToken) (creds creds' : Store RedditAuth) :
    (CallbackHandler.get provider req pending creds).1 =
      (CallbackHandler.get provider req pending creds').1 := by
  unfold CallbackHandler.get
  repeat' (first | rfl | split)

theorem callback_characterization (provider : Provider) (req : Request)
    (pending : Store OAuthRequestToken) (creds : Store RedditAuth) :
    (∃ a s, (CallbackHandler.get provider req pending creds).1 =
        Outcome.finish (some a) s ∧
      (CallbackHandler.get provider req pending creds).2.2 =
        storePut creds a.id a) ∨
    ((∀ a s, (CallbackHandler.get provider req pending creds).1 ≠
        Outcome.finish (some a) s) ∧
      (CallbackHandler.get provider req pending creds).2.2 = creds) := by
  unfold CallbackHandler.get
  repeat'
    (first
      | (left; exact ⟨_, _, rfl, rfl⟩)
      | (right; exact ⟨by simp, rfl⟩)
      | split)

theorem callback_success_puts_credential (provider : Provider) (req : Request)
    (pending : Store OAuthRequestToken) (creds : Store RedditAuth)
    (a : RedditAuth) (s : FinishState)
    (h : (CallbackHandler.get provider req pending creds).1 =
      Outcome.finish (some a) s) :
    (CallbackHandler.get provider req pending creds).2.2 =
      storePut creds a.id a := by
  rcases callback_characterization provider req pending creds with
    ⟨a', s', h1, h2⟩ | ⟨h1, _⟩
  · rw [h1] at h
    obtain ⟨rfl, rfl⟩ : a' = a ∧ s' = s := by
      constructor <;> [exact Option.some.inj (Outcome.finish.inj h).1;
        exact (Outcome.finish.inj h).2]
    exact h2
  · exact absurd h (h1 a s)

theorem callback_failure_keeps_credentials (provider : Provider)
    (req : Request) (pending : Store OAuthRequestToken)
    (creds : Store RedditAuth)
    (h : ∀ a s, (CallbackHandler.get provider req pending creds).1 ≠
      Outcome.finish (some a) s) :
    (CallbackHandler.get provider req pending creds).2.2 = creds := by
  rcases callback_characterization provider req pending creds with
    ⟨a', s', h1, _⟩ | ⟨_, h2⟩
  · exact absurd h1 (h a' s')
  · exact h2

/-! ### String append helpers -/

theorem strAppend_assoc (a b c : String) : a ++ b ++ c = a ++ (b ++ c) := by
  cases a with
  | mk xs =>
    cases b with
    | mk ys =>
      cases c with
      | mk zs => exact congrArg String.mk (List.append_assoc xs ys zs)

/-! ### Claim C8 -/

/-- C8: for any non-empty strings `s` and `p`, encoding the mapping
`{state: s, to_path: p}` with the oauth-state encoding used at Start and
then decoding it at Callback yields exactly that mapping. -/
theorem oauth_state_round_trip (s p : String) (hs : s ≠ "") (hp : p ≠ "") :
    decode_oauth_state (encode_oauth_state s p) =
      some [("state", s), ("to_path", p)] :=
  decode_encode_oauth_state s p

/-- Witness for C8 at `s = 123456`, `p = /cb`. -/
theorem oauth_state_round_trip_witness :
    ("123456" : String) ≠ "" ∧ ("/cb" : String) ≠ "" ∧
    decode_oauth_state (encode_oauth_state "123456" "/cb") =
      some [("state", "123456"), ("to_path", "/cb")] :=
  ⟨by decide, by decide,
    oauth_state_round_trip "123456" "/cb" (by decide) (by decide)⟩

/-! ### Claim C5 -/

/-- C5: for every Start invocation with valid configuration, the
PendingAuthRequest keyed by the emitted state token is persisted before the
authorization URL is returned: the effect trace is exactly the pending
put followed by the URL return, the returned pending store contains the
record keyed by the token, and that token is the one embedded in the URL's
state blob. -/
theorem start_persists_pending_before_url (cfg : Config)
    (host_url to_path : String) (rand : Nat) (state : Option String)
    (pending : Store OAuthRequestToken)
    (hk : cfg.reddit_app_key ≠ "") (hs : cfg.reddit_app_secret ≠ "") :
    ∃ pending' url tok,
      StartHandler.redirect_url cfg host_url to_path rand state pending =
        (Except.ok (pending', url),
          [StartEvent.putPending tok, StartEvent.returnUrl url]) ∧
      get_by_id pending' tok.id = some tok ∧
      url = prawAuthUrl cfg.reddit_app_key (host_url ++ to_path)
        ["identity"] (encode_oauth_state tok.id to_path) "permanent" := by
  have h1 : pyTruthyStr cfg.reddit_app_key = true := by
    simp [pyTruthyStr, hk]
  have h2 : pyTruthyStr cfg.reddit_app_secret = true := by
    simp [pyTruthyStr, hs]
  simp only [StartHandler.redirect_url]
  rw [if_pos ⟨h1, h2⟩]
  exact ⟨_, _, _, rfl, get_by_id_storePut pending _ _, rfl⟩

/-- Witness for C5 at a concrete configuration and random draw. -/
theorem start_persists_pending_before_url_witness :
    ∃ pending' url tok,
      StartHandler.redirect_url ⟨"app-key", "app-secret"⟩ "https://h" "/cb"
          123456 none [] =
        (Except.ok (pending', url),
          [StartEvent.putPending tok, StartEvent.returnUrl url]) ∧
      get_by_id pending' tok.id = some tok ∧
      url = prawAuthUrl "app-key" ("https://h" ++ "/cb")
        ["identity"] (encode_oauth_state tok.id "/cb") "permanent" :=
  start_persists_pending_before_url ⟨"app-key", "app-secret"⟩ "https://h"
    "/cb" 123456 none [] (by decide) (by decide)

/-! ### Claim C9 -/

/-- C9 counterexample: with both credential values missing, importing the
module succeeds — nothing aborts at startup level. The assertion only fires
when `redirect_url` runs, i.e. per request. -/
theorem missing_credentials_do_not_abort_startup :
    moduleInit "" "" = Except.ok ⟨"", ""⟩ ∧
    (StartHandler.redirect_url ⟨"", ""⟩ "https://h" "/cb" 123456 none
        []).1 =
      Except.error "Please fill in the reddit_app_key and reddit_app_secret files in your app's root directory." :=
  ⟨rfl, rfl⟩

/-- C9 (amended): if either application credential is missing or empty,
every `redirect_url` call fails immediately with the configuration
assertion — checked per request at the top of `redirect_url`, not at
startup — before the provider client is built and before any
PendingAuthRequest is written: the result is the assertion error and the
effect trace is empty. -/
theorem missing_credentials_fail_start_per_request (cfg : Config)
    (host_url to_path : String) (rand : Nat) (state : Option String)
    (pending : Store OAuthRequestToken)
    (h : cfg.reddit_app_key = "" ∨ cfg.reddit_app_secret = "") :
    StartHandler.redirect_url cfg host_url to_path rand state pending =
      (Except.error "Please fill in the reddit_app_key and reddit_app_secret files in your app's root directory.",
        []) := by
  have hn : ¬ (pyTruthyStr cfg.reddit_app_key = true ∧
      pyTruthyStr cfg.reddit_app_secret = true) := by
    rcases h with h | h <;> simp [pyTruthyStr, h]
  simp only [StartHandler.redirect_url]
  rw [if_neg hn]

/-- Witness for the amended C9 with the key present but the secret empty. -/
theorem missing_credentials_fail_start_per_request_witness :
    StartHandler.redirect_url ⟨"app-key", ""⟩ "https://h" "/cb" 123456
        (some "777777") demoPending =
      (Except.error "Please fill in the reddit_app_key and reddit_app_secret files in your app's root directory.",
        []) :=
  missing_credentials_fail_start_per_request ⟨"app-key", ""⟩ "https://h"
    "/cb" 123456 (some "777777") demoPending (Or.inr rfl)

/-! ### Claim C1 -/

/-- C1 (code bug): a Callback whose decoded state token (`999999`) has no
matching PendingAuthRequest does not terminate with the documented
client-error response — line 109 interpolates the undefined name
`request_token_key`, so the request dies with a `NameError` before
`HTTPBadRequest` is even constructed. The true half of the claim holds: no
Credential record is written or modified (here the credential store stays
empty), and the pending store is untouched. -/
theorem unknown_state_token_raises_name_error :
    CallbackHandler.get demoProvider
      (fun k => if k = "state" then encode_oauth_state "999999" "/cb"
        else if k = "code" then "abc123" else "")
      demoPending [] =
      (Outcome.nameError "request_token_key", demoPending, []) := by
  rfl

/-! ### Claim C2 -/

/-- C2 (code bug): protocol errors are not all answered with a client-error
response. Because line 97 reads `error in ('access_denied')` — a substring
test against the string, not membership in a one-element tuple — a provider
error `denied` (any substring of `access_denied`), and likewise a missing
`code` with no `error` at all (the empty string is a substring of
everything), are routed through the decline path and call finish with a
null credential instead of raising `HTTPBadRequest`. A non-substring error
such as `server_error` does get the client error. -/
theorem protocol_errors_routed_to_decline_path :
    CallbackHandler.get demoProvider
      (fun k => if k = "error" then "denied"
        else if k = "state" then encode_oauth_state "123456" "/cb"
        else if k = "code" then "abc123" else "")
      demoPending [] =
      (Outcome.finish none (FinishState.token (some "123456")),
        demoPending, []) ∧
    CallbackHandler.get demoProvider
      (fun k => if k = "state" then encode_oauth_state "123456" "/cb"
        else "")
      demoPending [] =
      (Outcome.finish none (FinishState.token (some "123456")),
        demoPending, []) ∧
    CallbackHandler.get demoProvider
      (fun k => if k = "error" then "server_error"
        else if k = "state" then encode_oauth_state "123456" "/cb"
        else if k = "code" then "abc123" else "")
      demoPending [] =
      (Outcome.httpBadRequest "Error: server_error", demoPending, []) := by
  exact ⟨rfl, rfl, rfl⟩

/-! ### Claim C3 -/

/-- C3 counterexample: with `error=access_denied` (and `code` present) the
decline path does not pass the decoded state through unchanged — the finish
collaborator receives only the decoded `state` field (`123456`), not the
decoded state mapping `{state: 123456, to_path: /cb}` that the success path
passes. -/
theorem decline_finish_state_is_not_decoded_blob :
    (CallbackHandler.get demoProvider
        (fun k => if k = "error" then "access_denied"
          else if k = "state" then encode_oauth_state "123456" "/cb"
          else if k = "code" then "abc123" else "")
        demoPending []).1 ≠
      Outcome.finish none
        (FinishState.blob [("state", "123456"), ("to_path", "/cb")]) ∧
    (CallbackHandler.get demoProvider
        (fun k => if k = "error" then "access_denied"
          else if k = "state" then encode_oauth_state "123456" "/cb"
          else if k = "code" then "abc123" else "")
        demoPending []).1 =
      Outcome.finish none (FinishState.token (some "123456")) := by
  exact ⟨by decide, rfl⟩

/-- C3 (amended): for every Callback invocation with `error=access_denied`
whose state parameter decodes, regardless of whether `code` is present, the
flow finishes via the decline path: finish is invoked with a null
credential and the decoded `state` field (not the full decoded mapping),
and neither store is modified — no Credential is written. -/
theorem access_denied_declines_with_null_credential (provider : Provider)
    (req : Request) (pending : Store OAuthRequestToken)
    (creds : Store RedditAuth) (st : List (String × String))
    (herr : req "error" = "access_denied")
    (hdec : decode_oauth_state (req "state") = some st) :
    CallbackHandler.get provider req pending creds =
      (Outcome.finish none (FinishState.token (dictGet st "state")),
        pending, creds) := by
  have h1 : pyTruthyStr "access_denied" = true := by decide
  have h2 : pyIn "access_denied" "access_denied" = true := by decide
  simp only [CallbackHandler.get, hdec, herr]
  rw [if_pos (Or.inl h1), if_pos h2]

/-- Witness for the amended C3: `error=access_denied` with no `code` at
all still declines, passing the decoded token. -/
theorem access_denied_declines_with_null_credential_witness :
    CallbackHandler.get demoProvider
      (fun k => if k = "error" then "access_denied"
        else if k = "state" then encode_oauth_state "123456" "/cb" else "")
      demoPending [] =
      (Outcome.finish none (FinishState.token (some "123456")),
        demoPending, []) :=
  access_denied_declines_with_null_credential demoProvider
    (fun k => if k = "error" then "access_denied"
      else if k = "state" then encode_oauth_state "123456" "/cb" else "")
    demoPending [] [("state", "123456"), ("to_path", "/cb")] rfl
    (decode_encode_oauth_state "123456" "/cb")

/-! ### Claim C4 -/

/-- C4 counterexample: a PendingAuthRequest read by one Callback remains
usable as proof of a second callback: with the pending store holding token
`123456`, a first Callback succeeds, and a second Callback presenting the
same token against the stores the first one left behind authenticates and
succeeds again — the record is never deleted. -/
theorem same_token_authenticates_twice :
    (CallbackHandler.get demoProvider demoReq demoPending []).1 =
      Outcome.finish (some (redditAuthOf demoUser "rt1"))
        (FinishState.blob [("state", "123456"), ("to_path", "/cb")]) ∧
    (CallbackHandler.get demoProvider demoReq
        (CallbackHandler.get demoProvider demoReq demoPending []).2.1
        (CallbackHandler.get demoProvider demoReq demoPending []).2.2).1 =
      Outcome.finish (some (redditAuthOf demoUser "rt1"))
        (FinishState.blob [("state", "123456"), ("to_path", "/cb")]) := by
  exact ⟨rfl, rfl⟩

/-- C4 (amended): the Callback never deletes or marks the
PendingAuthRequest it reads — the pending store is returned unchanged — so
a later Callback presenting the same token against the stores the first
invocation produced authenticates again, with the same successful
outcome. -/
theorem read_token_remains_and_reauthenticates (provider : Provider)
    (req : Request) (pending : Store OAuthRequestToken)
    (creds : Store RedditAuth) (a : RedditAuth) (s : FinishState)
    (h : (CallbackHandler.get provider req pending creds).1 =
      Outcome.finish (some a) s) :
    (CallbackHandler.get provider req pending creds).2.1 = pending ∧
    (CallbackHandler.get provider req
        (CallbackHandler.get provider req pending creds).2.1
        (CallbackHandler.get provider req pending creds).2.2).1 =
      Outcome.finish (some a) s := by
  refine ⟨callback_pending_unchanged provider req pending creds, ?_⟩
  rw [callback_pending_unchanged provider req pending creds]
  rw [callback_outcome_ignores_creds provider req pending
    ((CallbackHandler.get provider req pending creds).2.2) creds]
  exact h

/-- Witness for the amended C4 at the concrete fixtures. -/
theorem read_token_remains_and_reauthenticates_witness :
    (CallbackHandler.get demoProvider demoReq demoPending []).2.1 =
      demoPending ∧
    (CallbackHandler.get demoProvider demoReq
        (CallbackHandler.get demoProvider demoReq demoPending []).2.1
        (CallbackHandler.get demoProvider demoReq demoPending []).2.2).1 =
      Outcome.finish (some (redditAuthOf demoUser "rt1"))
        (FinishState.blob [("state", "123456"), ("to_path", "/cb")]) :=
  read_token_remains_and_reauthenticates demoProvider demoReq demoPending
    [] (redditAuthOf demoUser "rt1")
    (FinishState.blob [("state", "123456"), ("to_path", "/cb")]) rfl

/-! ### Claim C6 -/

/-- C6: on a Callback that passes the state check, if the provider-side
token exchange or the profile fetch fails, the failure propagates as an
upstream error and no partial or empty Credential is persisted: the
credential store (and the pending store) come back unchanged. -/
theorem exchange_failure_no_partial_credential (provider : Provider)
    (req : Request) (pending : Store OAuthRequestToken)
    (creds : Store RedditAuth) (st : List (String × String)) (s : String)
    (tok : OAuthRequestToken)
    (hdec : decode_oauth_state (req "state") = some st)
    (herr : req "error" = "")
    (hstate : dictGet st "state" = some s) (hsne : s ≠ "")
    (hcode : req "code" ≠ "")
    (htok : get_by_id pending s = some tok)
    (hfail : (∃ e, provider.authorize (req "code") = Except.error e) ∨
      (∃ e, provider.me = Except.error e)) :
    ∃ e, CallbackHandler.get provider req pending creds =
      (Outcome.upstreamError e, pending, creds) := by
  have hg : ¬ (pyTruthyStr (req "error") = true ∨
      ¬ pyTruthyOpt (dictGet st "state") = true ∨
      ¬ pyTruthyStr (req "code") = true) := by
    simp [pyTruthyStr, pyTruthyOpt, herr, hstate, hsne, hcode]
  rcases hfail with ⟨e, hae⟩ | ⟨e, hme⟩
  · refine ⟨e, ?_⟩
    simp only [CallbackHandler.get, hdec]
    rw [if_neg hg, hstate]
    simp only [Option.getD_some]
    rw [htok, hae]
  · cases hA : provider.authorize (req "code") with
    | error e' =>
      refine ⟨e', ?_⟩
      simp only [CallbackHandler.get, hdec]
      rw [if_neg hg, hstate]
      simp only [Option.getD_some]
      rw [htok, hA]
    | ok rt =>
      refine ⟨e, ?_⟩
      simp only [CallbackHandler.get, hdec]
      rw [if_neg hg, hstate]
      simp only [Option.getD_some]
      rw [htok, hA, hme]

/-- Witness for C6: a valid token with a provider whose exchange fails. -/
theorem exchange_failure_no_partial_credential_witness :
    ∃ e, CallbackHandler.get failProvider demoReq demoPending
        [("bob", { id := "bob", refresh_token := "rt0", user_json := [] })] =
      (Outcome.upstreamError e, demoPending,
        [("bob", { id := "bob", refresh_token := "rt0", user_json := [] })]) :=
  exchange_failure_no_partial_credential failProvider demoReq demoPending
    [("bob", { id := "bob", refresh_token := "rt0", user_json := [] })]
    [("state", "123456"), ("to_path", "/cb")] "123456"
    { id := "123456", token_secret := "123456", state := "123456" }
    (decode_encode_oauth_state "123456" "/cb") rfl rfl (by decide)
    (by decide) rfl (Or.inl ⟨"invalid_grant", rfl⟩)

/-! ### Claim C7 -/

/-- C7: if two Callback invocations both complete successfully and resolve
to the same provider user identifier (at most one record for it existed
before), then afterwards exactly one Credential record exists for that
identifier, and it is the one written by the most recent completion —
carrying that completion's refresh token and profile snapshot. -/
theorem two_callbacks_same_identity_one_credential
    (p₁ p₂ : Provider) (r₁ r₂ : Request)
    (pd₁ pd₂ : Store OAuthRequestToken) (creds : Store RedditAuth)
    (a₁ a₂ : RedditAuth) (s₁ s₂ : FinishState)
    (hcount : countKey creds a₂.id ≤ 1)
    (h₁ : (CallbackHandler.get p₁ r₁ pd₁ creds).1 =
      Outcome.finish (some a₁) s₁)
    (h₂ : (CallbackHandler.get p₂ r₂ pd₂
        ((CallbackHandler.get p₁ r₁ pd₁ creds).2.2)).1 =
      Outcome.finish (some a₂) s₂)
    (hid : a₁.id = a₂.id) :
    countKey ((CallbackHandler.get p₂ r₂ pd₂
        ((CallbackHandler.get p₁ r₁ pd₁ creds).2.2)).2.2) a₂.id = 1 ∧
    get_by_id ((CallbackHandler.get p₂ r₂ pd₂
        ((CallbackHandler.get p₁ r₁ pd₁ creds).2.2)).2.2) a₂.id =
      some a₂ := by
  have e₁ := callback_success_puts_credential p₁ r₁ pd₁ creds a₁ s₁ h₁
  have e₂ := callback_success_puts_credential p₂ r₂ pd₂
    ((CallbackHandler.get p₁ r₁ pd₁ creds).2.2) a₂ s₂ h₂
  rw [e₂, e₁, hid]
  refine ⟨?_, get_by_id_storePut _ _ _⟩
  exact countKey_storePut _ _ _
    (le_of_eq (countKey_storePut creds a₂.id a₁ hcount))

/-- Witness for C7: Alice authorizes twice (tokens `rt1` then `rt2`); one
record remains, holding `rt2` and the second profile snapshot. -/
theorem two_callbacks_same_identity_one_credential_witness :
    countKey ((CallbackHandler.get demoProvider2 demoReq demoPending
        ((CallbackHandler.get demoProvider demoReq demoPending []).2.2)).2.2)
      (redditAuthOf demoUser2 "rt2").id = 1 ∧
    get_by_id ((CallbackHandler.get demoProvider2 demoReq demoPending
        ((CallbackHandler.get demoProvider demoReq demoPending []).2.2)).2.2)
      (redditAuthOf demoUser2 "rt2").id =
      some (redditAuthOf demoUser2 "rt2") :=
  two_callbacks_same_identity_one_credential demoProvider demoProvider2
    demoReq demoReq demoPending demoPending [] (redditAuthOf demoUser "rt1")
    (redditAuthOf demoUser2 "rt2")
    (FinishState.blob [("state", "123456"), ("to_path", "/cb")])
    (FinishState.blob [("state", "123456"), ("to_path", "/cb")])
    (by decide) rfl rfl rfl

/-! ### Claim C10 -/

theorem strSplit_duration (Y : String) :
    ("&duration=" : String) ++ ("permanent" ++ Y) =
      "&" ++ ("duration=permanent" ++ Y) := by
  rw [← strAppend_assoc, ← strAppend_assoc]
  exact congrArg (· ++ Y) rfl

theorem strSplit_scope (Y : String) :
    ("&response_type=code&scope=" : String) ++
        (String.intercalate "%20" ["identity"] ++ Y) =
      "&response_type=code&" ++ ("scope=identity" ++ Y) := by
  rw [← strAppend_assoc, ← strAppend_assoc]
  exact congrArg (· ++ Y) rfl

/-- C10: end-to-end scenario. A Start invocation with `state=None` (and
random draw `n`) emits the six-digit numeric token `str(n)`, persists the
pending record under it, and returns an authorization URL containing
`duration=permanent` and `scope=identity` with the encoded token in its
state blob. A Callback presenting that blob with `code=abc123`, against a
provider that exchanges the code for `refresh_token=rt1` and identifies
the user `alice`, persists a Credential whose id is `alice` (derived from
the username), whose refresh token is `rt1`, and whose profile snapshot
maps `name` to `alice`. -/
theorem end_to_end_scenario (cfg : Config) (host_url : String) (n : Nat)
    (provider : Provider) (user : ProviderUser) (req : Request)
    (creds : Store RedditAuth)
    (hk : cfg.reddit_app_key ≠ "") (hsec : cfg.reddit_app_secret ≠ "")
    (hlo : 100000 ≤ n) (hhi : n ≤ 999999)
    (hrs : req "state" = encode_oauth_state (pyStr n) "/cb")
    (hrc : req "code" = "abc123") (hre : req "error" = "")
    (hauth : provider.authorize "abc123" = Except.ok "rt1")
    (hme : provider.me = Except.ok user)
    (hname : user.attrs "name" = "alice") :
    ((pyStr n).length = 6 ∧ (pyStr n).toList.all Char.isDigit = true) ∧
    (∃ url,
      StartHandler.redirect_url cfg host_url "/cb" n none [] =
        (Except.ok ([(pyStr n, startTok n)], url),
          [StartEvent.putPending (startTok n), StartEvent.returnUrl url]) ∧
      (∃ x y, url = x ++ "duration=permanent" ++ y) ∧
      (∃ x y, url = x ++ "scope=identity" ++ y)) ∧
    (∃ auth : RedditAuth,
      CallbackHandler.get provider req [(pyStr n, startTok n)] creds =
        (Outcome.finish (some auth)
          (FinishState.blob [("state", pyStr n), ("to_path", "/cb")]),
          [(pyStr n, startTok n)],
          storePut creds "alice" auth) ∧
      auth.id = "alice" ∧ auth.refresh_token = "rt1" ∧
      dictGet auth.user_json "name" = some "alice") := by
  have h1 : pyTruthyStr cfg.reddit_app_key = true := by
    simp [pyTruthyStr, hk]
  have h2 : pyTruthyStr cfg.reddit_app_secret = true := by
    simp [pyTruthyStr, hsec]
  have hsne : pyStr n ≠ "" := pyStr_ne_empty n hlo hhi
  have ht : user.toStr = "alice" := hname
  have hdg : dictGet [("state", pyStr n), ("to_path", "/cb")] "state" =
      some (pyStr n) := rfl
  refine ⟨pyStr_six_digits n hlo hhi, ?_, ?_⟩
  · simp only [StartHandler.redirect_url, pyTruthyOpt, Bool.false_eq_true,
      if_false]
    rw [if_pos ⟨h1, h2⟩]
    refine ⟨_, rfl, ?_, ?_⟩
    · refine ⟨"https://www.reddit.com/api/v1/authorize?client_id=" ++
        cfg.reddit_app_key ++ "&",
        "&redirect_uri=" ++ (host_url ++ "/cb") ++
          "&response_type=code&scope=" ++
          String.intercalate "%20" ["identity"] ++ "&state=" ++
          encode_oauth_state (pyStr n) "/cb", ?_⟩
      simp only [prawAuthUrl, strAppend_assoc]
      rw [strSplit_duration]
    · refine ⟨"https://www.reddit.com/api/v1/authorize?client_id=" ++
        cfg.reddit_app_key ++ "&duration=" ++ "permanent" ++
        "&redirect_uri=" ++ (host_url ++ "/cb") ++ "&response_type=code&",
        "&state=" ++ encode_oauth_state (pyStr n) "/cb", ?_⟩
      simp only [prawAuthUrl, strAppend_assoc]
      rw [strSplit_scope]
  · refine ⟨redditAuthOf user "rt1", ?_, ht, rfl, ?_⟩
    · have hg : ¬ (pyTruthyStr (req "error") = true ∨
          ¬ pyTruthyOpt (dictGet [("state", pyStr n), ("to_path", "/cb")]
            "state") = true ∨
          ¬ pyTruthyStr (req "code") = true) := by
        rw [hdg]
        simp [pyTruthyStr, pyTruthyOpt, hsne, hre, hrc]
      simp only [CallbackHandler.get, hrs, decode_encode_oauth_state]
      rw [if_neg hg, hdg]
      simp only [Option.getD_some]
      have hlook : get_by_id [(pyStr n, startTok n)] (pyStr n) =
          some (startTok n) :=
        get_by_id_storePut [] (pyStr n) (startTok n)
      rw [hlook, hrc, hauth, hme]
      show (Outcome.finish (some (redditAuthOf user "rt1"))
          (FinishState.blob [("state", pyStr n), ("to_path", "/cb")]),
        [(pyStr n, startTok n)],
        storePut creds user.toStr (redditAuthOf user "rt1")) = _
      rw [ht]
    · rw [show dictGet (redditAuthOf user "rt1").user_json "name" =
        some (user.attrs "name") from rfl, hname]

/-- Witness for C10 with the draw `123456` and the demo fixtures. -/
theorem end_to_end_scenario_witness :
    ((pyStr 123456).length = 6 ∧
      (pyStr 123456).toList.all Char.isDigit = true) ∧
    (∃ url,
      StartHandler.redirect_url ⟨"app-key", "app-secret"⟩ "https://h" "/cb"
          123456 none [] =
        (Except.ok ([(pyStr 123456, startTok 123456)], url),
          [StartEvent.putPending (startTok 123456),
            StartEvent.returnUrl url]) ∧
      (∃ x y, url = x ++ "duration=permanent" ++ y) ∧
      (∃ x y, url = x ++ "scope=identity" ++ y)) ∧
    (∃ auth : RedditAuth,
      CallbackHandler.get demoProvider
        (fun k => if k = "state" then encode_oauth_state (pyStr 123456) "/cb"
          else if k = "code" then "abc123" else "")
        [(pyStr 123456, startTok 123456)] [] =
        (Outcome.finish (some auth)
          (FinishState.blob [("state", pyStr 123456), ("to_path", "/cb")]),
          [(pyStr 123456, startTok 123456)],
          storePut [] "alice" auth) ∧
      auth.id = "alice" ∧ auth.refresh_token = "rt1" ∧
      dictGet auth.user_json "name" = some "alice") :=
  end_to_end_scenario ⟨"app-key", "app-secret"⟩ "https://h" 123456
    demoProvider demoUser
    (fun k => if k = "state" then encode_oauth_state (pyStr 123456) "/cb"
      else if k = "code" then "abc123" else "")
    [] (by decide) (by decide) (by decide) (by decide) rfl rfl rfl rfl rfl
    rfl
